import Mathlib

/-!
Verification development for the federation core of the
`je-suis-ici-activitypub` repository (Go).

The Go source is shallowly embedded: pure functions become Lean
functions, the database becomes an explicit `DB` value threaded through
operations, and the repository/SQL operations are translated from the
queries in `internal/activitypub/server.go` together with the unique
constraints declared in the SQL migrations.  Remote peers, user lookup
and the system clock are modelled as an explicit environment record, so
that `HandleInbox` is a function from an environment and a state to a
result and a new state.  The `sent` log records every outbound
`SendActivityToTargetInbox` call.

Elisions (documented here once): JSON fields of the `Activity` wire
struct that the inbox path never reads (`@context`, `published`,
`updated`, `cc`, `bto`, `bcc`, `result`, `origin`) are not decoded;
`published` is carried as an abstract `Nat` timestamp.  UUIDs are
modelled as `Nat`.  Raw request bytes are modelled by the parsed JSON
tree (`Option Json`, `none` standing for a body that is not well-formed
JSON).
-/

namespace JeSuisIci

/-- JSON values, the target of Go `encoding/json` decoding.  An object is
a list of key/value pairs; as in a Go map built by the decoder, a later
binding of the same key shadows an earlier one (see `lookupLast`). -/
inductive Json where
  | null : Json
  | bool : Bool → Json
  | num : Int → Json
  | str : String → Json
  | arr : List Json → Json
  | obj : List (String × Json) → Json

/-- Last-binding-wins lookup, matching Go map semantics for duplicate
JSON object keys. -/
def lookupLast (kvs : List (String × Json)) (k : String) : Option Json :=
  kvs.foldl (fun acc kv => if kv.1 = k then some kv.2 else acc) none

/-- The subset of the Go `Activity` wire struct (`types.go`) read by the
inbox and delivery paths: `id`, `type`, `actor`, polymorphic `object`,
`target`, `to`, plus the `published` timestamp. -/
structure Activity where
  id : String := ""
  type : String := ""
  actor : String := ""
  object : Json := Json.null
  target : String := ""
  toRecipients : List String := []
  published : Nat := 0

/-- Decode one string-typed struct field the way `json.Unmarshal` does:
a missing key or JSON `null` leaves the zero value, a JSON string is
taken verbatim, any other JSON kind is a type error. -/
def getStrField (kvs : List (String × Json)) (k : String) : Except String String :=
  match lookupLast kvs k with
  | none => Except.ok ""
  | some Json.null => Except.ok ""
  | some (Json.str s) => Except.ok s
  | some _ => Except.error ("cannot unmarshal field " ++ k)

/-- Decode a `[]string` field element list: strings verbatim, `null`
elements become the zero string, anything else is a type error. -/
def decodeStringItems : List Json → Except String (List String)
  | [] => Except.ok []
  | Json.str s :: rest => (decodeStringItems rest).map (fun l => s :: l)
  | Json.null :: rest => (decodeStringItems rest).map (fun l => "" :: l)
  | _ => Except.error "cannot unmarshal array element"

/-- Decode a `[]string` struct field (`to`): missing or `null` leaves
the zero slice, an array decodes elementwise, other kinds are errors. -/
def getStrListField (kvs : List (String × Json)) (k : String) : Except String (List String) :=
  match lookupLast kvs k with
  | none => Except.ok []
  | some Json.null => Except.ok []
  | some (Json.arr l) => decodeStringItems l
  | some _ => Except.error ("cannot unmarshal field " ++ k)

/-- `json.Unmarshal(body, &activity)` on an already-parsed JSON tree: a
top-level `null` is a no-op, a top-level object decodes fieldwise
(missing fields keep zero values), any other top-level kind is a type
error. -/
def decodeActivity : Json → Except String Activity
  | Json.null => Except.ok {}
  | Json.obj kvs => do
      let id ← getStrField kvs "id"
      let typ ← getStrField kvs "type"
      let actor ← getStrField kvs "actor"
      let target ← getStrField kvs "target"
      let toList ← getStrListField kvs "to"
      Except.ok { id := id, type := typ, actor := actor,
                  object := (lookupLast kvs "object").getD Json.null,
                  target := target, toRecipients := toList }
  | _ => Except.error "cannot unmarshal into Activity"

/-- One row of the `activities` table
(migration `20250414073037_create_activities_table.up.sql`). -/
structure StoredActivity where
  activity_id : String
  actor : String
  type : String
  object_id : String
  object_type : String
  target : String
  raw_content : Json
  processed : Bool

/-- One row of the `followers` table
(migration `20250414080628_create_followers_table.up.sql`). -/
structure Follower where
  user_id : Nat
  follower_actor_id : String
  follower_inbox : String
deriving DecidableEq

/-- The persistent state touched by the federation core. -/
structure DB where
  activities : List StoredActivity
  followers : List Follower

/-- `SaveActivity` (`server.go`): plain `INSERT` of a row with
`processed = false`; the `UNIQUE` constraint on `activity_id` makes a
duplicate insert fail. -/
def SaveActivity (db : DB) (activityID actor activityType objectID objectType target : String)
    (rawContent : Json) : Except String DB :=
  if db.activities.any (fun a => a.activity_id = activityID) then
    Except.error "duplicate key value violates unique constraint"
  else
    Except.ok { db with activities := db.activities ++
      [{ activity_id := activityID, actor := actor, type := activityType,
         object_id := objectID, object_type := objectType, target := target,
         raw_content := rawContent, processed := false }] }

/-- `MarkActivityAsProcessed` (`server.go`): `UPDATE activities SET
processed = true WHERE activity_id = $1`. -/
def MarkActivityAsProcessed (db : DB) (activityID : String) : DB :=
  { db with activities := db.activities.map (fun a =>
      if a.activity_id = activityID then { a with processed := true } else a) }

/-- `AddFollower` (`server.go`): `INSERT ... ON CONFLICT (user_id,
follower_actor_id) DO NOTHING`. -/
def AddFollower (db : DB) (userID : Nat) (followerActorID followerInbox : String) : DB :=
  if db.followers.any (fun f => f.user_id = userID ∧ f.follower_actor_id = followerActorID) then
    db
  else
    { db with followers := db.followers ++
      [{ user_id := userID, follower_actor_id := followerActorID,
         follower_inbox := followerInbox }] }

/-- `RemoveFollower` (`server.go`): `DELETE FROM followers WHERE user_id
= $1 AND follower_actor_id = $2`. -/
def RemoveFollower (db : DB) (userID : Nat) (followerActorID : String) : DB :=
  { db with followers := db.followers.filter (fun f =>
      ¬(f.user_id = userID ∧ f.follower_actor_id = followerActorID)) }

/-- `PublicKey` block of an actor profile (`types.go`). -/
structure PublicKey where
  id : String
  owner : String
  publicKeyPem : String
deriving DecidableEq

/-- `Image` block of an actor profile (`types.go`), as used by `GetActor`. -/
structure Image where
  type : String
  url : String
deriving DecidableEq

/-- The fields of the Go `Person` profile document (`types.go`) that the
core reads or writes.  The Go struct holds `PublicKey` by value and
`Icon` by pointer; both conditional blocks are modelled as `Option` set
exactly when the source sets them. -/
structure Person where
  id : String := ""
  type : String := ""
  name : String := ""
  preferredUsername : String := ""
  inbox : String := ""
  outbox : String := ""
  following : String := ""
  followers : String := ""
  liked : String := ""
  url : String := ""
  publicKey : Option PublicKey := none
  icon : Option Image := none
  published : Nat := 0
  updated : Nat := 0
deriving DecidableEq

/-- The fields of `models.User` read by the federation core. -/
structure User where
  username : String := ""
  displayName : String := ""
  actorID : String := ""
  privateKey : String := ""
  publicKey : String := ""
  avatarURL : String := ""
  createdAt : Nat := 0
  updatedAt : Nat := 0
deriving DecidableEq

/-- Environment of `HandleInbox`: the remote federation, the user store
and the nondeterministic inputs (fresh UUID, clock), made explicit.
`fetchActor` is the outcome of `FetchActorPublicInformation`,
`sendResult` the outcome of the HTTP POST inside
`SendActivityToTargetInbox`, `getUser` the outcome of
`userRepo.GetByID`. -/
structure Env where
  serverHost : String
  fetchActor : String → Except String Person
  sendResult : Activity → String → Except String Unit
  getUser : Nat → Except String User
  freshUUID : String
  now : Nat

/-- The mutable world as seen from the inbox processor: the database
plus the log of outbound deliveries attempted so far. -/
structure Effects where
  db : DB
  sent : List (Activity × String)

/-- `SendActivityToTargetInbox` as observed by the server service: the
request is issued (logged) and its outcome is the environment's answer. -/
def sendActivity (env : Env) (st : Effects) (a : Activity) (inbox : String) :
    Except String Unit × Effects :=
  (env.sendResult a inbox, { st with sent := st.sent ++ [(a, inbox)] })

/-- The `Accept` activity built by `handleFollowActivity` (`server.go`
lines 333-346); note the source's `https//` scheme typo in the fresh
activity id, reproduced faithfully. -/
def acceptActivity (env : Env) (followerActorID : String) (user : User) : Activity :=
  { id := "https//" ++ env.serverHost ++ "/activities/" ++ env.freshUUID,
    type := "Accept",
    actor := user.actorID,
    object := Json.obj
      [("id", Json.str followerActorID),
       ("type", Json.str "Follow"),
       ("actor", Json.str followerActorID),
       ("object", Json.str user.actorID)],
    toRecipients := [followerActorID],
    published := env.now }

/-- `handleFollowActivity` (`server.go` lines 313-350): fetch the
follower's profile, insert the follower edge from the fetched profile's
`id` and `inbox`, look the local user up, build the `Accept` activity
and send it to the fetched inbox. -/
def handleFollowActivity (env : Env) (st : Effects) (userID : Nat)
    (followerActorID : String) : Except String Unit × Effects :=
  match env.fetchActor followerActorID with
  | Except.error e => (Except.error ("fail to get follower actor: " ++ e), st)
  | Except.ok follower =>
    let st1 := { st with db := AddFollower st.db userID follower.id follower.inbox }
    match env.getUser userID with
    | Except.error e => (Except.error ("fail to get user: " ++ e), st1)
    | Except.ok user =>
      sendActivity env st1 (acceptActivity env followerActorID user) follower.inbox

/-- `handleUndoFollowActivity` (`server.go` lines 352-354). -/
def handleUndoFollowActivity (st : Effects) (userID : Nat) (followerActorID : String) :
    Except String Unit × Effects :=
  (Except.ok (), { st with db := RemoveFollower st.db userID followerActorID })

/-- The `object` normalization of `HandleInbox`: a JSON string gives
`objectID`, a JSON object gives `id`/`type` when they are strings, any
other kind leaves both fields empty. -/
def extractObject : Json → String × String
  | Json.str s => (s, "")
  | Json.obj kvs =>
      (match lookupLast kvs "id" with
       | some (Json.str s) => s
       | _ => "",
       match lookupLast kvs "type" with
       | some (Json.str s) => s
       | _ => "")
  | _ => ("", "")

/-- `HandleInbox` (`server.go` lines 256-311): parse, extract index
fields, persist with `processed = false`, then dispatch on the activity
type (Follow, Undo-of-Follow, otherwise nothing). -/
def HandleInbox (env : Env) (st : Effects) (userID : Nat) (body : Option Json) :
    Except String Unit × Effects :=
  match body with
  | none => (Except.error "fail to parse activity", st)
  | some j =>
    match decodeActivity j with
    | Except.error e => (Except.error ("fail to parse activity: " ++ e), st)
    | Except.ok activity =>
      let ot := extractObject activity.object
      let target := if activity.target ≠ "" then activity.target else ""
      match SaveActivity st.db activity.id activity.actor activity.type ot.1 ot.2 target j with
      | Except.error e => (Except.error ("fail to save activity: " ++ e), st)
      | Except.ok db1 =>
        let st1 := { st with db := db1 }
        if activity.type = "Follow" then
          handleFollowActivity env st1 userID activity.actor
        else if activity.type = "Undo" ∧ ot.2 = "Follow" then
          handleUndoFollowActivity st1 userID activity.actor
        else
          (Except.ok (), st1)

/-- `GetActor` (`actor.go` lines 97-132): renders the actor profile
document.  The base identifier is recomputed as
`http://{serverHost}/user/{username}` (not taken from `user.ActorID`),
the collection URIs are that base plus a fixed suffix (note the source's
`/linked` suffix for the `liked` collection), and the public-key and
icon blocks are set only when the corresponding user field is
non-empty. -/
def GetActor (user : User) (serverHost : String) : Person :=
  let actorID := "http://" ++ serverHost ++ "/user/" ++ user.username
  { id := actorID, type := "Person", name := user.displayName,
    preferredUsername := user.username,
    inbox := actorID ++ "/inbox", outbox := actorID ++ "/outbox",
    following := actorID ++ "/following", followers := actorID ++ "/followers",
    liked := actorID ++ "/linked", url := actorID,
    publicKey :=
      if user.publicKey ≠ "" then
        some { id := actorID ++ "#main-key", owner := actorID,
               publicKeyPem := user.publicKey }
      else none,
    icon :=
      if user.avatarURL ≠ "" then some { type := "Image", url := user.avatarURL }
      else none,
    published := user.createdAt, updated := user.updatedAt }

/-- Go `net/url.shouldEscape` for mode `encodePathSegment`, over a byte:
alphanumerics and `- _ . ~` are kept; of the reserved set
`$ & + , / : ; = ? @` a path segment escapes exactly `/ ; , ?`;
every other byte is escaped. -/
def shouldEscape (c : Nat) : Bool :=
  if (97 ≤ c ∧ c ≤ 122) ∨ (65 ≤ c ∧ c ≤ 90) ∨ (48 ≤ c ∧ c ≤ 57) then false
  else if c = 45 ∨ c = 95 ∨ c = 46 ∨ c = 126 then false
  else if c = 36 ∨ c = 38 ∨ c = 43 ∨ c = 44 ∨ c = 47 ∨ c = 58 ∨ c = 59 ∨
          c = 61 ∨ c = 63 ∨ c = 64 then
    decide (c = 47 ∨ c = 59 ∨ c = 44 ∨ c = 63)
  else true

/-- Upper-case hexadecimal digit, as in Go `net/url.escape`. -/
def hexDigitUpper (n : Nat) : Char :=
  if n < 10 then Char.ofNat (48 + n) else Char.ofNat (55 + n)

/-- Escaping of one byte by Go `net/url.escape`: `%XX` when
`shouldEscape`, the byte itself otherwise. -/
def escapeByte (c : Fin 256) : List Char :=
  if shouldEscape c.val then
    ['%', hexDigitUpper (c.val / 16), hexDigitUpper (c.val % 16)]
  else [Char.ofNat c.val]

/-- Go `net/url.PathEscape` over the UTF-8 bytes of the input string
(Go strings are byte sequences, modelled as `List (Fin 256)`). -/
def pathEscape (bs : List (Fin 256)) : String :=
  String.mk (bs.foldr (fun b acc => escapeByte b ++ acc) [])

/-- `GenerateActorID` (`actor.go` lines 60-67):
`http://{serverHost}/users/{PathEscape(username)}`. -/
def GenerateActorID (serverHost : String) (username : List (Fin 256)) : String :=
  "http://" ++ serverHost ++ "/users/" ++ pathEscape username

/-- Characters that may appear unescaped in a URI path segment, plus
`%` introducing an escape sequence. -/
def isUriSafeChar (c : Char) : Bool :=
  c.isAlphanum || c = '-' || c = '_' || c = '.' || c = '~' || c = '$' ||
  c = '&' || c = '+' || c = ':' || c = '=' || c = '@' || c = '%'

/-- The outbound HTTP request as read and written by `signRequest`:
method, URL path, URL host, and headers (Go `Header.Set` replaces any
existing value for the key). -/
structure HttpRequest where
  method : String
  path : String
  host : String
  headers : List (String × String)
deriving DecidableEq

/-- Go `req.Header.Set`: replace every existing value for the key. -/
def setHeader (r : HttpRequest) (k v : String) : HttpRequest :=
  { r with headers := r.headers.filter (fun h => h.1 ≠ k) ++ [(k, v)] }

/-- Header lookup. -/
def getHeader (r : HttpRequest) (k : String) : Option String :=
  (r.headers.find? (fun h => h.1 = k)).map (fun h => h.2)

/-- One sextet of standard base64. -/
def base64Char (n : Nat) : Char :=
  if n < 26 then Char.ofNat (65 + n)
  else if n < 52 then Char.ofNat (97 + (n - 26))
  else if n < 62 then Char.ofNat (48 + (n - 52))
  else if n = 62 then '+'
  else '/'

/-- Standard base64 with `=` padding (Go `base64.StdEncoding`), over
bytes. -/
def base64EncodeChars : List Nat → List Char
  | b1 :: b2 :: b3 :: rest =>
      let n := b1 * 65536 + b2 * 256 + b3
      base64Char (n / 262144 % 64) :: base64Char (n / 4096 % 64) ::
        base64Char (n / 64 % 64) :: base64Char (n % 64) :: base64EncodeChars rest
  | [b1, b2] =>
      let n := b1 * 65536 + b2 * 256
      [base64Char (n / 262144 % 64), base64Char (n / 4096 % 64),
       base64Char (n / 64 % 64), '=']
  | [b1] =>
      let n := b1 * 65536
      [base64Char (n / 262144 % 64), base64Char (n / 4096 % 64), '=', '=']
  | [] => []

/-- Go `base64.StdEncoding.EncodeToString`. -/
def base64Encode (bs : List Nat) : String :=
  String.mk (base64EncodeChars bs)

/-- The two cryptographic primitives `signRequest` calls into the Go
standard library for, kept abstract: `parsePrivateKey` stands for
`pem.Decode` followed by `x509.ParsePKCS1PrivateKey` (`none` when either
fails), and `rsaSignSHA256` stands for SHA-256 hashing of the message
followed by `rsa.SignPKCS1v15` with the parsed key (`none` on signing
failure), returning the raw signature bytes. -/
structure CryptoModel where
  parsePrivateKey : String → Option String
  rsaSignSHA256 : String → String → Option (List Nat)

/-- The string to be signed (`client.go` line 224):
`(request-target): {method} {path}\nhost: {host}\ndate: {date}`. -/
def signingString (method path host date : String) : String :=
  "(request-target): " ++ method ++ " " ++ path ++ "\nhost: " ++ host ++
    "\ndate: " ++ date

/-- The `Signature` header value (`client.go` line 245). -/
def signatureHeaderValue (actorID : String) (encodedSignature : String) : String :=
  "keyId=\"" ++ actorID ++ "#main-key\",algorithm=\"rsa-sha256\"," ++
    "headers=\"(request-target) host date\",signature=\"" ++ encodedSignature ++ "\""

/-- `signRequest` (`client.go` lines 201-252).  `now` stands for
`time.Now().UTC().Format(http.TimeFormat)`, a parameter because the
clock is external.  The Date header is set before the signing string is
assembled, so the signed material contains the same date value that the
header carries. -/
def signRequest (cm : CryptoModel) (now : String) (req : HttpRequest) (user : User) :
    Except String HttpRequest :=
  match cm.parsePrivateKey user.privateKey with
  | none => Except.error "fail to parse private key"
  | some key =>
    let date := now
    let req1 := setHeader req "Date" date
    let signString := signingString req1.method req1.path req1.host date
    match cm.rsaSignSHA256 key signString with
    | none => Except.error "fail to sign"
    | some signatureBytes =>
      let encodedSignature := base64Encode signatureBytes
      Except.ok (setHeader req1 "Signature" (signatureHeaderValue user.actorID encodedSignature))

/-- The string entries of a decoded JSON list, in order (non-string
entries are skipped, as by the `item.(string)` assertions). -/
def jsonStrings (l : List Json) : List String :=
  l.filterMap (fun j => match j with | Json.str s => some s | _ => none)

/-- The key inspection of `GetActorFollowers` (`client.go` lines
176-195) on the decoded collection document: the code first asserts
`rawJSON["item"]` (note: the singular key `item`, not `items`) to a
list, then `rawJSON["orderedItems"]`, and errors when neither assertion
succeeds. -/
def collectionFollowers (kvs : List (String × Json)) : Except String (List String) :=
  match lookupLast kvs "item" with
  | some (Json.arr items) => Except.ok (jsonStrings items)
  | _ =>
    match lookupLast kvs "orderedItems" with
    | some (Json.arr orderedItems) => Except.ok (jsonStrings orderedItems)
    | _ => Except.error "followers collection does not have item or orderedItems"

/-- `GetActorFollowers` (`client.go` lines 144-198) downstream of the
HTTP GET: the argument is the outcome of the request (error, or the
response body as JSON).  A body that is not a JSON object fails the
`map[string]interface{}` decode; a `null` body leaves the map empty. -/
def GetActorFollowers (fetched : Except String Json) : Except String (List String) :=
  match fetched with
  | Except.error e => Except.error ("fail to get actor followers: " ++ e)
  | Except.ok (Json.obj kvs) => collectionFollowers kvs
  | Except.ok Json.null => collectionFollowers []
  | Except.ok _ => Except.error "fail to decode response followers"

/-- The row `HandleInbox` hands to `SaveActivity` for a decoded
activity and its raw body. -/
def inboxRow (act : Activity) (j : Json) : StoredActivity :=
  { activity_id := act.id, actor := act.actor, type := act.type,
    object_id := (extractObject act.object).1,
    object_type := (extractObject act.object).2,
    target := if act.target ≠ "" then act.target else "",
    raw_content := j, processed := false }

/-- An `Undo` body whose `object` field is a bare string. -/
def undoStringBody (actID actor s : String) : Json :=
  Json.obj [("id", Json.str actID), ("type", Json.str "Undo"),
            ("actor", Json.str actor), ("object", Json.str s)]

/-! Concrete fixtures used by counterexamples and witnesses. -/

/-- Empty initial state: no stored activities, no followers, no sends. -/
def st0 : Effects := { db := { activities := [], followers := [] }, sent := [] }

/-- A remote profile whose document id matches the URI it is fetched
from. -/
def bobPerson : Person :=
  { id := "https://remote/users/bob", inbox := "https://remote/users/bob/inbox" }

/-- A remote profile whose document id differs from the URI it is
fetched from. -/
def bob2Person : Person :=
  { id := "https://elsewhere/users/bob2", inbox := "https://remote/users/bob/inbox" }

/-- The local user the fixture inbox belongs to. -/
def aliceUser : User :=
  { username := "alice", displayName := "Alice",
    actorID := "http://example.com/users/alice", publicKey := "PUBPEM" }

/-- Environment in which every remote interaction succeeds. -/
def envAllOk : Env :=
  { serverHost := "example.com",
    fetchActor := fun _ => Except.ok bobPerson,
    sendResult := fun _ _ => Except.ok (),
    getUser := fun _ => Except.ok aliceUser,
    freshUUID := "uuid-1", now := 5 }

/-- Environment in which the remote profile fetch fails. -/
def envFetchFail : Env :=
  { envAllOk with fetchActor := fun _ => Except.error "connection refused" }

/-- Environment in which the fetched profile's id differs from the
actor URI of the inbound Follow. -/
def envMismatch : Env :=
  { envAllOk with fetchActor := fun _ => Except.ok bob2Person }

/-- An inbound Follow body. -/
def followBody : Json :=
  Json.obj [("id", Json.str "https://remote/activities/1"),
            ("type", Json.str "Follow"),
            ("actor", Json.str "https://remote/users/bob")]

/-- A well-formed body that lacks the id and actor fields. -/
def likeBodyMissing : Json := Json.obj [("type", Json.str "Like")]

/-- UTF-8 bytes of the username "john doe". -/
def johnDoeBytes : List (Fin 256) := [106, 111, 104, 110, 32, 100, 111, 101]

/-- UTF-8 bytes of the one-character Unicode username U+00E9. -/
def eAcuteBytes : List (Fin 256) := [195, 169]

/-- A followers collection document carrying the standard unordered
`items` key. -/
def itemsDoc : Json :=
  Json.obj [("items", Json.arr [Json.str "https://remote/users/a",
                                Json.str "https://remote/users/b"])]

/-- A followers collection document carrying the singular `item` key the
code actually inspects. -/
def itemDoc : Json :=
  Json.obj [("item", Json.arr [Json.str "https://remote/users/a"])]

/-! Helper lemmas about the inbox pipeline, shared by several claim
proofs. -/

/-- `handleFollowActivity` never touches the activities table. -/
theorem handleFollow_preserves_activities (env : Env) (st : Effects) (uid : Nat)
    (actor : String) :
    ((handleFollowActivity env st uid actor).2).db.activities = st.db.activities := by
  cases h : env.fetchActor actor with
  | error e => simp [handleFollowActivity, h]
  | ok p =>
    cases hu : env.getUser uid with
    | error e =>
      simp [handleFollowActivity, h, hu, AddFollower]
      split <;> rfl
    | ok u =>
      simp [handleFollowActivity, h, hu, sendActivity, AddFollower]
      split <;> rfl

/-- When the profile fetch succeeds, the database after
`handleFollowActivity` is exactly the insert of the fetched edge,
whatever the user lookup and delivery outcomes. -/
theorem handleFollow_db_of_fetch_ok (env : Env) (st : Effects) (uid : Nat)
    (actor : String) (p : Person) (h : env.fetchActor actor = Except.ok p) :
    ((handleFollowActivity env st uid actor).2).db = AddFollower st.db uid p.id p.inbox := by
  cases hu : env.getUser uid with
  | error e => simp [handleFollowActivity, h, hu]
  | ok u => simp [handleFollowActivity, h, hu, sendActivity]

/-- A failing profile fetch aborts `handleFollowActivity` with the
wrapped error and no state change. -/
theorem handleFollow_fetch_error (env : Env) (st : Effects) (uid : Nat)
    (actor e : String) (h : env.fetchActor actor = Except.error e) :
    handleFollowActivity env st uid actor =
      (Except.error ("fail to get follower actor: " ++ e), st) := by
  simp [handleFollowActivity, h]

/-- Full unfolding of `handleFollowActivity` when fetch and user lookup
succeed. -/
theorem handleFollow_ok_full (env : Env) (st : Effects) (uid : Nat) (actor : String)
    (p : Person) (user : User) (hf : env.fetchActor actor = Except.ok p)
    (hu : env.getUser uid = Except.ok user) :
    handleFollowActivity env st uid actor =
      (env.sendResult (acceptActivity env actor user) p.inbox,
       { db := AddFollower st.db uid p.id p.inbox,
         sent := st.sent ++ [(acceptActivity env actor user, p.inbox)] }) := by
  simp [handleFollowActivity, hf, hu, sendActivity]

/-- After a successful decode and a fresh activity id, `HandleInbox` is
the persisted state followed by the type dispatch. -/
theorem handleInbox_dispatch (env : Env) (st : Effects) (uid : Nat) (j : Json)
    (act : Activity) (hdec : decodeActivity j = Except.ok act)
    (hfresh : st.db.activities.any (fun a => a.activity_id = act.id) = false) :
    HandleInbox env st uid (some j) =
      (if act.type = "Follow" then
        handleFollowActivity env
          { st with db := { st.db with activities := st.db.activities ++ [inboxRow act j] } }
          uid act.actor
      else if act.type = "Undo" ∧ (extractObject act.object).2 = "Follow" then
        handleUndoFollowActivity
          { st with db := { st.db with activities := st.db.activities ++ [inboxRow act j] } }
          uid act.actor
      else
        (Except.ok (),
         { st with db := { st.db with activities := st.db.activities ++ [inboxRow act j] } })) := by
  simp only [HandleInbox, hdec]
  simp [SaveActivity, hfresh, inboxRow]

/-- A duplicate activity id makes `HandleInbox` fail at the persistence
step with no state change. -/
theorem handleInbox_save_fail (env : Env) (st : Effects) (uid : Nat) (j : Json)
    (act : Activity) (hdec : decodeActivity j = Except.ok act)
    (hdup : st.db.activities.any (fun a => a.activity_id = act.id) = true) :
    HandleInbox env st uid (some j) =
      (Except.error ("fail to save activity: duplicate key value violates unique constraint"),
       st) := by
  simp only [HandleInbox, hdec]
  simp [SaveActivity, hdup]

/-- `HandleInbox` only ever appends to the activities table, and every
appended row starts with `processed = false`. -/
theorem handleInbox_activities_extend (env : Env) (st : Effects) (uid : Nat)
    (body : Option Json) :
    ∃ new, (HandleInbox env st uid body).2.db.activities = st.db.activities ++ new ∧
      ∀ a ∈ new, a.processed = false := by
  cases body with
  | none => exact ⟨[], by simp [HandleInbox], by simp⟩
  | some j =>
    cases hdec : decodeActivity j with
    | error e => exact ⟨[], by simp [HandleInbox, hdec], by simp⟩
    | ok act =>
      cases hfr : st.db.activities.any (fun a => a.activity_id = act.id) with
      | true =>
        exact ⟨[], by rw [handleInbox_save_fail env st uid j act hdec hfr]; simp, by simp⟩
      | false =>
        refine ⟨[inboxRow act j], ?_, ?_⟩
        · rw [handleInbox_dispatch env st uid j act hdec hfr]
          split
          · rw [handleFollow_preserves_activities]
          · split
            · simp [handleUndoFollowActivity, RemoveFollower]
            · rfl
        · intro a ha
          simp only [List.mem_singleton] at ha
          subst ha
          rfl

/-- After a successful decode and save, the extracted row is in the
final activities table whatever the dispatch outcome. -/
theorem inboxRow_mem (env : Env) (st : Effects) (uid : Nat) (j : Json) (act : Activity)
    (hdec : decodeActivity j = Except.ok act)
    (hfresh : st.db.activities.any (fun a => a.activity_id = act.id) = false) :
    inboxRow act j ∈ (HandleInbox env st uid (some j)).2.db.activities := by
  rw [handleInbox_dispatch env st uid j act hdec hfresh]
  split
  · rw [handleFollow_preserves_activities]
    simp
  · split
    · simp [handleUndoFollowActivity, RemoveFollower]
    · simp

/-- C1 (amended): once the save has succeeded the stored row survives —
with `processed = false` and its raw payload intact — whatever the
side-effect outcome; but `HandleInbox` propagates a profile-fetch
failure as an error to the peer instead of returning success. -/
theorem handleInbox_row_survives_side_effect_failure (env : Env) (st : Effects)
    (uid : Nat) (j : Json) (act : Activity)
    (hdec : decodeActivity j = Except.ok act)
    (hfresh : st.db.activities.any (fun a => a.activity_id = act.id) = false) :
    (∃ a ∈ (HandleInbox env st uid (some j)).2.db.activities,
        a.activity_id = act.id ∧ a.processed = false ∧ a.raw_content = j)
    ∧ (∀ e, act.type = "Follow" → env.fetchActor act.actor = Except.error e →
        (HandleInbox env st uid (some j)).1 =
          Except.error ("fail to get follower actor: " ++ e)) := by
  constructor
  · exact ⟨inboxRow act j, inboxRow_mem env st uid j act hdec hfresh, rfl, rfl, rfl⟩
  · intro e htype hfetch
    rw [handleInbox_dispatch env st uid j act hdec hfresh, if_pos htype,
        handleFollow_fetch_error _ _ _ _ _ hfetch]

/-- C1 (witness): concrete run in which the fetch fails after
persistence: the row is retained unprocessed and the error is
returned. -/
theorem handleInbox_row_survives_witness :
    (∃ a ∈ (HandleInbox envFetchFail st0 1 (some followBody)).2.db.activities,
        a.activity_id = "https://remote/activities/1" ∧ a.processed = false ∧
        a.raw_content = followBody)
    ∧ (HandleInbox envFetchFail st0 1 (some followBody)).1 =
        Except.error "fail to get follower actor: connection refused" := by
  have h := handleInbox_row_survives_side_effect_failure envFetchFail st0 1 followBody
    { id := "https://remote/activities/1", type := "Follow",
      actor := "https://remote/users/bob" } rfl rfl
  exact ⟨h.1, h.2 "connection refused" rfl rfl⟩

/-- C1 (counterexample): the same run shows `HandleInbox` does not
return success to the peer after persistence — the profile-fetch error
is surfaced even though the row was durably stored. -/
theorem handleInbox_error_after_persistence :
    (HandleInbox envFetchFail st0 1 (some followBody)).1 =
      Except.error "fail to get follower actor: connection refused"
    ∧ ((HandleInbox envFetchFail st0 1 (some followBody)).2.db.activities.map
        (fun a => (a.activity_id, a.processed))) = [("https://remote/activities/1", false)] :=
  ⟨rfl, rfl⟩

/-- C2 (amended): the inbox rejects a body before persistence exactly
when JSON decoding fails (ill-formed bytes or a wrongly-typed field);
the presence of `id`, `type` and `actor` is not checked, and a decoded
activity is persisted whatever those fields hold. -/
theorem handleInbox_rejects_only_on_decode_failure (env : Env) (st : Effects) (uid : Nat) :
    (HandleInbox env st uid none = (Except.error "fail to parse activity", st))
    ∧ (∀ j e, decodeActivity j = Except.error e →
        HandleInbox env st uid (some j) =
          (Except.error ("fail to parse activity: " ++ e), st))
    ∧ (∀ j act, decodeActivity j = Except.ok act →
        st.db.activities.any (fun a => a.activity_id = act.id) = false →
        inboxRow act j ∈ (HandleInbox env st uid (some j)).2.db.activities) := by
  refine ⟨rfl, ?_, ?_⟩
  · intro j e h
    simp [HandleInbox, h]
  · intro j act hdec hfresh
    exact inboxRow_mem env st uid j act hdec hfresh

/-- C2 (witness): a malformed body is rejected with the state untouched,
while a well-formed body with no `id`/`actor` is accepted and stored. -/
theorem handleInbox_rejects_witness :
    HandleInbox envAllOk st0 1 none = (Except.error "fail to parse activity", st0)
    ∧ inboxRow { type := "Like" } likeBodyMissing ∈
        (HandleInbox envAllOk st0 1 (some likeBodyMissing)).2.db.activities := by
  have h := handleInbox_rejects_only_on_decode_failure envAllOk st0 1
  exact ⟨h.1, h.2.2 likeBodyMissing { type := "Like" } rfl rfl⟩

/-- C2 (counterexample): a well-formed JSON activity lacking `id`,
`actor` (and any validation of them) is not rejected: `HandleInbox`
returns success and persists a row with empty index fields. -/
theorem handleInbox_accepts_missing_required_fields :
    (HandleInbox envAllOk st0 1 (some likeBodyMissing)).1 = Except.ok ()
    ∧ ((HandleInbox envAllOk st0 1 (some likeBodyMissing)).2.db.activities.map
        (fun a => (a.activity_id, a.actor, a.type))) = [("", "", "Like")] :=
  ⟨rfl, rfl⟩

/-- C4 (amended): `HandleInbox` only appends rows (existing rows keep
their id, payload and flag verbatim) and every new row starts
unprocessed; `MarkActivityAsProcessed` keeps every row's id and raw
payload and only ever raises the `processed` flag.  The pipeline itself
never reaches `processed = true`: even a fully successful dispatch
leaves the row `false` (see the counterexample), the mark step being
exposed for later reconciliation only. -/
theorem storedActivity_flag_monotone_payload_immutable :
    (∀ (env : Env) (st : Effects) (uid : Nat) (body : Option Json),
      ∃ new, (HandleInbox env st uid body).2.db.activities = st.db.activities ++ new ∧
        ∀ a ∈ new, a.processed = false)
    ∧ (∀ (db : DB) (id : String),
        List.Forall₂ (fun a a' =>
          a'.activity_id = a.activity_id ∧ a'.raw_content = a.raw_content ∧
          (a.processed = true → a'.processed = true))
          db.activities (MarkActivityAsProcessed db id).activities) := by
  constructor
  · exact handleInbox_activities_extend
  · intro db id
    rw [MarkActivityAsProcessed]
    rw [List.forall₂_map_right_iff, List.forall₂_same]
    intro a _
    split
    · exact ⟨rfl, rfl, fun _ => rfl⟩
    · exact ⟨rfl, rfl, fun h => h⟩

/-- A one-row database used to witness the mark step. -/
def dbOne : DB :=
  { activities :=
      [{ activity_id := "A", actor := "x", type := "Like",
         object_id := "", object_type := "", target := "",
         raw_content := Json.null, processed := false }],
    followers := [] }

/-- C4 (witness): the invariants instantiated on a concrete run and a
concrete mark. -/
theorem storedActivity_flag_monotone_witness :
    (∃ new, (HandleInbox envAllOk st0 1 (some followBody)).2.db.activities =
        st0.db.activities ++ new ∧ ∀ a ∈ new, a.processed = false)
    ∧ List.Forall₂ (fun a a' =>
        a'.activity_id = a.activity_id ∧ a'.raw_content = a.raw_content ∧
        (a.processed = true → a'.processed = true))
        dbOne.activities (MarkActivityAsProcessed dbOne "A").activities :=
  ⟨storedActivity_flag_monotone_payload_immutable.1 envAllOk st0 1 (some followBody),
   storedActivity_flag_monotone_payload_immutable.2 dbOne "A"⟩

/-- C4 (counterexample): a fully successful Follow dispatch — fetch,
edge insert, user lookup and Accept delivery all succeed — still leaves
the stored row with `processed = false`; the pipeline never transitions
it to `true`. -/
theorem handleInbox_success_leaves_unprocessed :
    (HandleInbox envAllOk st0 1 (some followBody)).1 = Except.ok ()
    ∧ ((HandleInbox envAllOk st0 1 (some followBody)).2.db.activities.map
        (fun a => a.processed)) = [false] :=
  ⟨rfl, rfl⟩

/-- `AddFollower` never touches the activities table. -/
theorem AddFollower_preserves_activities (db : DB) (u : Nat) (f i : String) :
    (AddFollower db u f i).activities = db.activities := by
  rw [AddFollower]
  split <;> rfl

/-- The conflict branch of `AddFollower`: an existing (user, follower)
pair makes the insert a no-op. -/
theorem AddFollower_dup (db : DB) (u : Nat) (f i : String)
    (h : db.followers.any (fun x => x.user_id = u ∧ x.follower_actor_id = f) = true) :
    AddFollower db u f i = db := by
  rw [AddFollower]
  split
  · rfl
  · next hc => exact absurd h hc

/-- The insert branch of `AddFollower`: a fresh (user, follower) pair is
appended. -/
theorem AddFollower_new (db : DB) (u : Nat) (f i : String)
    (h : db.followers.any (fun x => x.user_id = u ∧ x.follower_actor_id = f) = false) :
    AddFollower db u f i =
      { db with followers := db.followers ++
        [{ user_id := u, follower_actor_id := f, follower_inbox := i }] } := by
  rw [AddFollower]
  split
  · next hc => rw [h] at hc; exact Bool.noConfusion hc
  · rfl

/-- C3 (amended): on a successfully dispatched inbound Follow, exactly
one follower edge is inserted — keyed by the fetched profile's `id` and
`inbox`, which coincide with the Follow's actor URI only when the remote
document is self-consistent — and exactly one Accept is sent to the
fetched inbox, whose embedded object has type Follow, actor the
requesting actor, and object the local user's actor ID. -/
theorem follow_dispatch_edge_and_accept (env : Env) (st : Effects) (uid : Nat)
    (j : Json) (act : Activity) (p : Person) (user : User)
    (hdec : decodeActivity j = Except.ok act)
    (htype : act.type = "Follow")
    (hfresh : st.db.activities.any (fun a => a.activity_id = act.id) = false)
    (hfetch : env.fetchActor act.actor = Except.ok p)
    (huser : env.getUser uid = Except.ok user)
    (hnoedge : st.db.followers.any
      (fun f => f.user_id = uid ∧ f.follower_actor_id = p.id) = false) :
    (HandleInbox env st uid (some j)).2.db.followers =
      st.db.followers ++
        [{ user_id := uid, follower_actor_id := p.id, follower_inbox := p.inbox }]
    ∧ (HandleInbox env st uid (some j)).2.sent =
        st.sent ++ [(acceptActivity env act.actor user, p.inbox)]
    ∧ (acceptActivity env act.actor user).type = "Accept"
    ∧ (acceptActivity env act.actor user).actor = user.actorID
    ∧ (acceptActivity env act.actor user).object =
        Json.obj [("id", Json.str act.actor), ("type", Json.str "Follow"),
                  ("actor", Json.str act.actor), ("object", Json.str user.actorID)] := by
  rw [handleInbox_dispatch env st uid j act hdec hfresh, if_pos htype]
  set st1 : Effects :=
    { st with db := { st.db with activities := st.db.activities ++ [inboxRow act j] } }
    with hst1
  rw [handleFollow_ok_full env st1 uid act.actor p user hfetch huser]
  refine ⟨?_, rfl, rfl, rfl, rfl⟩
  show (AddFollower st1.db uid p.id p.inbox).followers =
    st.db.followers ++
      [{ user_id := uid, follower_actor_id := p.id, follower_inbox := p.inbox }]
  rw [AddFollower_new st1.db uid p.id p.inbox hnoedge]

/-- C3 (witness): concrete successful Follow dispatch in which the
fetched profile's id equals the actor URI. -/
theorem follow_dispatch_witness :
    (HandleInbox envAllOk st0 1 (some followBody)).2.db.followers =
      st0.db.followers ++
        [{ user_id := 1, follower_actor_id := "https://remote/users/bob",
           follower_inbox := "https://remote/users/bob/inbox" }]
    ∧ (HandleInbox envAllOk st0 1 (some followBody)).2.sent =
        st0.sent ++ [(acceptActivity envAllOk "https://remote/users/bob" aliceUser,
                      "https://remote/users/bob/inbox")] := by
  have h := follow_dispatch_edge_and_accept envAllOk st0 1 followBody
    { id := "https://remote/activities/1", type := "Follow",
      actor := "https://remote/users/bob" } bobPerson aliceUser rfl rfl rfl rfl rfl rfl
  exact ⟨h.1, h.2.1⟩

/-- C3 (counterexample): when the fetched profile's document id differs
from the actor URI of the inbound Follow, the dispatch succeeds but the
inserted edge does not carry the actor URI X: the claim's edge
(u, X, inbox) does not exist. -/
theorem follow_edge_not_actor_uri :
    (HandleInbox envMismatch st0 1 (some followBody)).1 = Except.ok ()
    ∧ ((HandleInbox envMismatch st0 1 (some followBody)).2.db.followers.map
        (fun f => (f.user_id, f.follower_actor_id, f.follower_inbox))) =
      [(1, "https://elsewhere/users/bob2", "https://remote/users/bob/inbox")]
    ∧ ((HandleInbox envMismatch st0 1 (some followBody)).2.db.followers.all
        (fun f => f.follower_actor_id ≠ "https://remote/users/bob")) = true :=
  ⟨rfl, rfl, rfl⟩

/-- C5: submitting the same Follow (same id) twice leaves the state of
the first submission unchanged — the second save hits the unique
`activity_id` constraint before any side effect — so exactly one stored
row and exactly one follower edge exist; `AddFollower` and
`RemoveFollower` are idempotent. -/
theorem duplicate_follow_idempotent (env : Env) (st : Effects) (uid : Nat)
    (j : Json) (act : Activity) (p : Person)
    (hdec : decodeActivity j = Except.ok act)
    (htype : act.type = "Follow")
    (hfresh : st.db.activities.any (fun a => a.activity_id = act.id) = false)
    (hfetch : env.fetchActor act.actor = Except.ok p)
    (hnoedge : st.db.followers.any
      (fun f => f.user_id = uid ∧ f.follower_actor_id = p.id) = false) :
    (HandleInbox env (HandleInbox env st uid (some j)).2 uid (some j)).2 =
      (HandleInbox env st uid (some j)).2
    ∧ ((HandleInbox env st uid (some j)).2.db.activities.countP
        (fun a => a.activity_id = act.id)) = 1
    ∧ ((HandleInbox env st uid (some j)).2.db.followers.countP
        (fun f => f.user_id = uid ∧ f.follower_actor_id = p.id)) = 1
    ∧ (∀ db u f i, AddFollower (AddFollower db u f i) u f i = AddFollower db u f i)
    ∧ (∀ db u f, RemoveFollower (RemoveFollower db u f) u f = RemoveFollower db u f) := by
  have hact : (HandleInbox env st uid (some j)).2.db.activities =
      st.db.activities ++ [inboxRow act j] := by
    rw [handleInbox_dispatch env st uid j act hdec hfresh, if_pos htype,
        handleFollow_preserves_activities]
  have hfol : (HandleInbox env st uid (some j)).2.db.followers =
      st.db.followers ++
        [{ user_id := uid, follower_actor_id := p.id, follower_inbox := p.inbox }] := by
    rw [handleInbox_dispatch env st uid j act hdec hfresh, if_pos htype]
    set st1 : Effects :=
      { st with db := { st.db with activities := st.db.activities ++ [inboxRow act j] } }
      with hst1
    rw [handleFollow_db_of_fetch_ok env st1 uid act.actor p hfetch,
        AddFollower_new st1.db uid p.id p.inbox hnoedge]
  have hdup : (HandleInbox env st uid (some j)).2.db.activities.any
      (fun a => a.activity_id = act.id) = true := by
    rw [hact]
    simp [inboxRow]
  refine ⟨?_, ?_, ?_, ?_, ?_⟩
  · rw [handleInbox_save_fail env _ uid j act hdec hdup]
  · rw [hact, List.countP_append]
    have h0 : st.db.activities.countP (fun a => a.activity_id = act.id) = 0 := by
      rw [List.countP_eq_zero]
      intro a ha
      have := List.any_eq_false.mp (by exact_mod_cast hfresh) a ha
      simpa using this
    rw [h0]
    simp [inboxRow]
  · rw [hfol, List.countP_append]
    have h0 : st.db.followers.countP
        (fun f => f.user_id = uid ∧ f.follower_actor_id = p.id) = 0 := by
      rw [List.countP_eq_zero]
      intro f hf
      have := List.any_eq_false.mp (by exact_mod_cast hnoedge) f hf
      simpa using this
    rw [h0]
    simp
  · intro db u f i
    cases h : db.followers.any (fun x => x.user_id = u ∧ x.follower_actor_id = f) with
    | true => rw [AddFollower_dup db u f i h, AddFollower_dup db u f i h]
    | false =>
      rw [AddFollower_new db u f i h]
      apply AddFollower_dup
      rw [List.any_append, h]
      simp
  · intro db u f
    simp [RemoveFollower, List.filter_filter]

/-- C5 (witness): concrete duplicate submission of the fixture
Follow. -/
theorem duplicate_follow_idempotent_witness :
    (HandleInbox envAllOk (HandleInbox envAllOk st0 1 (some followBody)).2 1
        (some followBody)).2 =
      (HandleInbox envAllOk st0 1 (some followBody)).2
    ∧ ((HandleInbox envAllOk st0 1 (some followBody)).2.db.activities.countP
        (fun a => a.activity_id = "https://remote/activities/1")) = 1
    ∧ ((HandleInbox envAllOk st0 1 (some followBody)).2.db.followers.countP
        (fun f => f.user_id = 1 ∧ f.follower_actor_id = "https://remote/users/bob")) = 1 := by
  have h := duplicate_follow_idempotent envAllOk st0 1 followBody
    { id := "https://remote/activities/1", type := "Follow",
      actor := "https://remote/users/bob" } bobPerson rfl rfl rfl rfl rfl
  exact ⟨h.1, h.2.1, h.2.2.1⟩

/-- C10: an inbound Undo whose object is a bare string is persisted
with an empty `object_type`, removes no follower edge, and returns
success; the `object_type` index field is non-empty only when the
object decoded as a JSON map. -/
theorem undo_with_string_object_noop (env : Env) (st : Effects) (uid : Nat)
    (actID actor s : String)
    (hfresh : st.db.activities.any (fun a => a.activity_id = actID) = false) :
    (HandleInbox env st uid (some (undoStringBody actID actor s)) =
      (Except.ok (),
       { st with db := { st.db with activities := st.db.activities ++
          [{ activity_id := actID, actor := actor, type := "Undo",
             object_id := s, object_type := "", target := "",
             raw_content := undoStringBody actID actor s, processed := false }] } }))
    ∧ (∀ o : Json, (extractObject o).2 ≠ "" → ∃ kvs, o = Json.obj kvs) := by
  constructor
  · have hdec : decodeActivity (undoStringBody actID actor s) =
        Except.ok { id := actID, type := "Undo", actor := actor,
                    object := Json.str s } := rfl
    rw [handleInbox_dispatch env st uid _ _ hdec hfresh]
    simp [inboxRow, extractObject]
  · intro o h
    cases o <;> simp [extractObject] at h ⊢

/-- C10 (witness): concrete Undo-with-string-object run. -/
theorem undo_with_string_object_witness :
    HandleInbox envAllOk st0 1
      (some (undoStringBody "https://remote/activities/2" "https://remote/users/bob"
        "https://remote/activities/1")) =
      (Except.ok (),
       { st0 with db := { st0.db with activities := st0.db.activities ++
          [{ activity_id := "https://remote/activities/2",
             actor := "https://remote/users/bob", type := "Undo",
             object_id := "https://remote/activities/1", object_type := "", target := "",
             raw_content := undoStringBody "https://remote/activities/2"
               "https://remote/users/bob" "https://remote/activities/1",
             processed := false }] } }) :=
  (undo_with_string_object_noop envAllOk st0 1 "https://remote/activities/2"
    "https://remote/users/bob" "https://remote/activities/1" rfl).1

/-- C6: the followers-collection decode understands the singular key
`item` and the ordered key `orderedItems`, and rejects a document whose
list sits under the standard unordered key `items` — contradicting the
spec sentence that an unordered `items` list must be understood and that
the call fails only when neither `items` nor `orderedItems` is
present. -/
theorem getActorFollowers_items_key_bug :
    GetActorFollowers (Except.ok itemsDoc) =
      Except.error "followers collection does not have item or orderedItems"
    ∧ GetActorFollowers (Except.ok itemDoc) = Except.ok ["https://remote/users/a"]
    ∧ GetActorFollowers
        (Except.ok (Json.obj [("orderedItems", Json.arr [Json.str "https://remote/users/b"])])) =
      Except.ok ["https://remote/users/b"] :=
  ⟨rfl, rfl, rfl⟩

set_option maxRecDepth 8192 in
/-- Every character emitted for one escaped byte is URI-safe. -/
theorem escapeByte_safe : ∀ (b : Fin 256), ∀ c ∈ escapeByte b, isUriSafeChar c = true := by
  decide

/-- C7: `signRequest` fails exactly when key parsing or signing fails;
on success it leaves the request with the Date header set to the given
UTC HTTP-date and a Signature header of exactly the specified shape,
the signature being computed over the signing string
`(request-target): {method} {path}\nhost: {host}\ndate: {date}` that
embeds the same date value the header carries. -/
theorem signRequest_spec (cm : CryptoModel) (now : String) (req : HttpRequest)
    (user : User) :
    (cm.parsePrivateKey user.privateKey = none →
      signRequest cm now req user = Except.error "fail to parse private key")
    ∧ (∀ key, cm.parsePrivateKey user.privateKey = some key →
        cm.rsaSignSHA256 key (signingString req.method req.path req.host now) = none →
        signRequest cm now req user = Except.error "fail to sign")
    ∧ (∀ key sig, cm.parsePrivateKey user.privateKey = some key →
        cm.rsaSignSHA256 key (signingString req.method req.path req.host now) = some sig →
        signRequest cm now req user = Except.ok
          (setHeader (setHeader req "Date" now) "Signature"
            (signatureHeaderValue user.actorID (base64Encode sig)))
        ∧ ("Date", now) ∈ (setHeader (setHeader req "Date" now) "Signature"
            (signatureHeaderValue user.actorID (base64Encode sig))).headers) := by
  refine ⟨?_, ?_, ?_⟩
  · intro h
    simp [signRequest, h]
  · intro key hp hs
    simp [signRequest, hp, setHeader, hs]
  · intro key sig hp hs
    constructor
    · simp [signRequest, hp, setHeader, hs]
    · simp [setHeader, List.mem_filter]

/-- Fixture crypto model: parsing returns the PEM text as key handle,
signing returns a fixed three-byte signature. -/
def cmFixture : CryptoModel :=
  { parsePrivateKey := fun s => some s, rsaSignSHA256 := fun _ _ => some [1, 2, 3] }

/-- Fixture outbound request. -/
def reqFixture : HttpRequest :=
  { method := "POST", path := "/users/bob/inbox", host := "remote.example", headers := [] }

/-- Fixture HTTP date. -/
def dateFixture : String := "Sat, 11 Oct 2025 00:00:00 GMT"

/-- C7 (witness): the success case of `signRequest` evaluated on
concrete fixtures. -/
theorem signRequest_witness :
    signRequest cmFixture dateFixture reqFixture aliceUser = Except.ok
      (setHeader (setHeader reqFixture "Date" dateFixture) "Signature"
        (signatureHeaderValue aliceUser.actorID (base64Encode [1, 2, 3]))) :=
  ((signRequest_spec cmFixture dateFixture reqFixture aliceUser).2.2 "" [1, 2, 3]
    rfl rfl).1

/-- C8: `GenerateActorID` is a pure deterministic function of
(host, username) and percent-encodes the username bytes: a space
becomes `%20`, a two-byte Unicode character becomes `%C3%A9`, and every
character of the escaped segment is URI-safe. -/
theorem generateActorID_deterministic_escaping :
    (∀ (h₁ h₂ : String) (u₁ u₂ : List (Fin 256)), h₁ = h₂ → u₁ = u₂ →
      GenerateActorID h₁ u₁ = GenerateActorID h₂ u₂)
    ∧ GenerateActorID "example.com" johnDoeBytes = "http://example.com/users/john%20doe"
    ∧ GenerateActorID "example.com" eAcuteBytes = "http://example.com/users/%C3%A9"
    ∧ (∀ u : List (Fin 256), ∀ c ∈ (pathEscape u).toList, isUriSafeChar c = true) := by
  refine ⟨?_, by decide, by decide, ?_⟩
  · intro h₁ h₂ u₁ u₂ hh hu
    rw [hh, hu]
  · intro u
    induction u with
    | nil => intro c hc; simp [pathEscape] at hc
    | cons b bs ih =>
      intro c hc
      have hc' : c ∈ escapeByte b ++ (bs.foldr (fun x acc => escapeByte x ++ acc) []) := hc
      rcases List.mem_append.mp hc' with h1 | h2
      · exact escapeByte_safe b c h1
      · exact ih c h2

/-- C8 (witness): determinism and safety instantiated on the space-
containing username. -/
theorem generateActorID_witness :
    GenerateActorID "example.com" johnDoeBytes = GenerateActorID "example.com" johnDoeBytes
    ∧ isUriSafeChar 'j' = true :=
  ⟨generateActorID_deterministic_escaping.1 "example.com" "example.com" johnDoeBytes
     johnDoeBytes rfl rfl,
   generateActorID_deterministic_escaping.2.2.2 johnDoeBytes 'j' (by decide)⟩

/-- C9 (amended): the actor document derives its collection URIs by
fixed suffixing from the base identifier it recomputes as
`http://{host}/user/{username}` — which is not the user's stored actor
ID — with suffix `/linked` (not `/liked`) for the liked collection; the
public-key block is present exactly when the user has a public key, and
the icon block exactly when an avatar URL is present. -/
theorem getActor_document_shape (user : User) (host : String) :
    (GetActor user host).id = "http://" ++ host ++ "/user/" ++ user.username
    ∧ (GetActor user host).inbox = (GetActor user host).id ++ "/inbox"
    ∧ (GetActor user host).outbox = (GetActor user host).id ++ "/outbox"
    ∧ (GetActor user host).following = (GetActor user host).id ++ "/following"
    ∧ (GetActor user host).followers = (GetActor user host).id ++ "/followers"
    ∧ (GetActor user host).liked = (GetActor user host).id ++ "/linked"
    ∧ ((GetActor user host).publicKey = none ↔ user.publicKey = "")
    ∧ ((GetActor user host).icon = none ↔ user.avatarURL = "")
    ∧ (user.publicKey ≠ "" → (GetActor user host).publicKey =
        some { id := (GetActor user host).id ++ "#main-key",
               owner := (GetActor user host).id,
               publicKeyPem := user.publicKey }) := by
  refine ⟨rfl, rfl, rfl, rfl, rfl, rfl, ?_, ?_, ?_⟩
  · constructor
    · intro h
      by_cases hp : user.publicKey = ""
      · exact hp
      · exfalso
        simp [GetActor, hp] at h
    · intro h
      simp [GetActor, h]
  · constructor
    · intro h
      by_cases hp : user.avatarURL = ""
      · exact hp
      · exfalso
        simp [GetActor, hp] at h
    · intro h
      simp [GetActor, h]
  · intro h
    simp [GetActor, h]

/-- C9 (witness): the document shape instantiated on the fixture user,
who has a public key. -/
theorem getActor_document_witness :
    (GetActor aliceUser "example.com").liked = (GetActor aliceUser "example.com").id ++ "/linked"
    ∧ (GetActor aliceUser "example.com").publicKey =
        some { id := (GetActor aliceUser "example.com").id ++ "#main-key",
               owner := (GetActor aliceUser "example.com").id,
               publicKeyPem := "PUBPEM" } := by
  have h := getActor_document_shape aliceUser "example.com"
  exact ⟨h.2.2.2.2.2.1, h.2.2.2.2.2.2.2.2 (by decide)⟩

/-- C9 (counterexample): for a user whose stored actor ID was derived
under `/users/`, the rendered document does not suffix the user's actor
ID, and the liked URI ends in `/linked`, not `/liked`. -/
theorem getActor_diverges_from_actor_id :
    (GetActor aliceUser "example.com").liked ≠ aliceUser.actorID ++ "/liked"
    ∧ (GetActor aliceUser "example.com").inbox ≠ aliceUser.actorID ++ "/inbox"
    ∧ (GetActor aliceUser "example.com").liked = "http://example.com/user/alice/linked" :=
  ⟨by decide, by decide, by decide⟩

end JeSuisIci
